import Mathlib

/-!
# Page Ping-pong Throttling (PPT) — shallow embedding

A shallow embedding of the PPT tracking/decision/eviction engine from
`mm/ppt.c` and `include/linux/ppt.h`, together with theorems about the
claims of the specification.

Modelling conventions:
* `unsigned long` (64-bit) quantities are `Nat`; wherever the C code can
  wrap (the `current_masked - stored_jiffies` subtraction), the wrap is
  made explicit with `% 2 ^ 64`.  All other arithmetic in the source
  stays far below `2 ^ 64`, so plain `Nat` operations coincide with the
  C operations there.
* The per-mm XArray (keyed by pfn, holding tagged scalar values) is an
  association list ordered by ascending key, matching the ascending
  index order of `xa_for_each`.  `xa_load`, `__xa_erase` and
  `__xa_store` become `xa_load`, `xa_erase` and `xa_store`.
* `atomic_t ppt_entry_count` is an `Int` (it is a signed counter that
  the code decrements without checking for zero).
* The six `atomic64_t` statistics counters are `Nat` fields of
  `PptStats`.
* `GFP_ATOMIC` allocation failure of `__xa_store` is a nondeterministic
  environment event, passed in as a `store_ok : Bool` argument.
* The tunables live in `PptConfig`.  The code always compares elapsed
  times against `msecs_to_jiffies(ppt_promotion_throttle_duration)` and
  `msecs_to_jiffies(ppt_promotion_lifetime_expiration)`; the config
  carries these two already-converted jiffy thresholds
  (`throttle_jiffies`, `lifetime_jiffies`) since `msecs_to_jiffies` is
  host-kernel code outside this repository.
-/

/-- `PPT_JIFFIES_BITS` from `include/linux/ppt.h`. -/
def PPT_JIFFIES_BITS : Nat := 22

/-- `PPT_JIFFIES_MASK = (1UL << PPT_JIFFIES_BITS) - 1`. -/
def PPT_JIFFIES_MASK : Nat := (1 <<< PPT_JIFFIES_BITS) - 1

/-- `PPT_PINGPONG_BIT` from `include/linux/ppt.h`. -/
def PPT_PINGPONG_BIT : Nat := 23

/-- `PPT_GET_JIFFIES(val) = ((val) >> 1) & PPT_JIFFIES_MASK`. -/
def PPT_GET_JIFFIES (val : Nat) : Nat := (val >>> 1) &&& PPT_JIFFIES_MASK

/-- `PPT_GET_PINGPONG(val) = ((val) >> PPT_PINGPONG_BIT) & 1`. -/
def PPT_GET_PINGPONG (val : Nat) : Nat := (val >>> PPT_PINGPONG_BIT) &&& 1

/-- `PPT_MAKE_VALUE(jiffies, pingpong) =
    (((jiffies) & PPT_JIFFIES_MASK) << 1) | (((pingpong) & 1) << PPT_PINGPONG_BIT)`. -/
def PPT_MAKE_VALUE (jiffies pingpong : Nat) : Nat :=
  ((jiffies &&& PPT_JIFFIES_MASK) <<< 1) ||| ((pingpong &&& 1) <<< PPT_PINGPONG_BIT)

/-- C `unsigned long` (64-bit) subtraction `a - b`, wrapping modulo `2 ^ 64`. -/
def ul_sub (a b : Nat) : Nat := (a % 2 ^ 64 + (2 ^ 64 - b % 2 ^ 64)) % 2 ^ 64

/-- The elapsed-time computation shared by all four sites in `mm/ppt.c`
(`ppt_should_throttle_promotion`, `ppt_evict_expired_entry`,
`ppt_track_demotion`, `ppt_shrink_mm_xarray`):
`diff = (current - stored_jiffies) & PPT_JIFFIES_MASK` with 64-bit
wrapping subtraction. -/
def ppt_elapsed (current stored_jiffies : Nat) : Nat :=
  ul_sub current stored_jiffies &&& PPT_JIFFIES_MASK

/-- Modelled from the spec: `TNF_THROTTLED` is a task-NUMA-fault reason
bit declared in the host kernel headers, not in this repository; its
exact bit position is immaterial to the engine, which only ORs it into
`*out_flags`. -/
def TNF_THROTTLED : Nat := 1 <<< 5

/-- The per-mm XArray contents: pfn/value pairs in ascending pfn order
(the iteration order of `xa_for_each`). -/
abbrev PptArray := List (Nat × Nat)

/-- `xa_load(xa, pfn)`: point lookup. -/
def xa_load : PptArray → Nat → Option Nat
  | [], _ => none
  | (k, v) :: rest, pfn => if k = pfn then some v else xa_load rest pfn

/-- `__xa_erase(xa, pfn)`: point delete (no-op when the key is absent). -/
def xa_erase : PptArray → Nat → PptArray
  | [], _ => []
  | (k, v) :: rest, pfn =>
    if k = pfn then xa_erase rest pfn else (k, v) :: xa_erase rest pfn

/-- `__xa_store(xa, pfn, v)` (successful case): insert or overwrite,
keeping the list in ascending key order. -/
def xa_store : PptArray → Nat → Nat → PptArray
  | [], pfn, v => [(pfn, v)]
  | (k, w) :: rest, pfn, v =>
    if pfn < k then (pfn, v) :: (k, w) :: rest
    else if pfn = k then (pfn, v) :: rest
    else (k, w) :: xa_store rest pfn v

/-- The PPT-relevant fields of `struct mm_struct`: the (nullable)
pointer to the XArray and the `atomic_t` live-entry counter. -/
structure MMState where
  ppt_xarray : Option PptArray
  ppt_entry_count : Int
  deriving Repr, DecidableEq

/-- The six global `atomic64_t` statistics counters of `mm/ppt.c`. -/
structure PptStats where
  promotions_allowed : Nat
  promotions_throttled : Nat
  demotions_short_lived : Nat
  demotions_long_lived : Nat
  xarray_stores_failed : Nat
  state_exceptions : Nat
  deriving Repr, DecidableEq

/-- The tunable configuration (sysfs-settable globals of `mm/ppt.c`).
`throttle_jiffies` stands for
`msecs_to_jiffies(ppt_promotion_throttle_duration)` and
`lifetime_jiffies` for
`msecs_to_jiffies(ppt_promotion_lifetime_expiration)`. -/
structure PptConfig where
  ppt_enabled : Bool
  throttle_jiffies : Nat
  lifetime_jiffies : Nat
  ppt_max_entries_per_mm : Nat
  deriving Repr, DecidableEq

/-- Result of `ppt_should_throttle_promotion`: return value, updated mm
state, updated statistics, and the (possibly updated) `*out_flags`. -/
structure ThrottleResult where
  ret : Bool
  mm : MMState
  stats : PptStats
  out_flags : Nat
  deriving Repr, DecidableEq

/-- `ppt_should_throttle_promotion` (`mm/ppt.c:122-191`).  `pfn` is
`page_to_pfn(page)`, `jiffies` the clock sample taken at entry. -/
def ppt_should_throttle_promotion (cfg : PptConfig) (mm : MMState) (stats : PptStats)
    (pfn : Nat) (jiffies : Nat) (out_flags : Nat) : ThrottleResult :=
  if cfg.ppt_enabled = false then
    ⟨false, mm, stats, out_flags⟩
  else
    match mm.ppt_xarray with
    | none => ⟨false, mm, stats, out_flags⟩
    | some xa =>
      match xa_load xa pfn with
      | some value =>
        let stored_jiffies := PPT_GET_JIFFIES value
        let pg_pingpong := PPT_GET_PINGPONG value
        let current_masked := jiffies &&& PPT_JIFFIES_MASK
        let diff := ppt_elapsed current_masked stored_jiffies
        if pg_pingpong = 0 then
          ⟨false,
           ⟨some (xa_erase xa pfn), mm.ppt_entry_count - 1⟩,
           { stats with state_exceptions := stats.state_exceptions + 1 },
           out_flags⟩
        else
          if diff < cfg.throttle_jiffies then
            ⟨true, mm,
             { stats with promotions_throttled := stats.promotions_throttled + 1 },
             out_flags ||| TNF_THROTTLED⟩
          else
            ⟨false,
             ⟨some (xa_erase xa pfn), mm.ppt_entry_count - 1⟩,
             { stats with promotions_allowed := stats.promotions_allowed + 1 },
             out_flags⟩
      | none =>
        ⟨false, mm,
         { stats with promotions_allowed := stats.promotions_allowed + 1 },
         out_flags⟩

/-- The per-entry expiry test of the two eviction scans
(`ppt_evict_expired_entry`, `ppt_shrink_mm_xarray`): the threshold is
the lifetime threshold for `pg_pingpong = 0` entries and the throttle
threshold for `pg_pingpong = 1` entries; an entry is expired when
`diff >= threshold`. -/
def entry_expired (cfg : PptConfig) (current_jiffies value : Nat) : Bool :=
  let stored_jiffies := PPT_GET_JIFFIES value
  let pg_pingpong := PPT_GET_PINGPONG value
  let diff := ppt_elapsed current_jiffies stored_jiffies
  let threshold :=
    if pg_pingpong = 0 then cfg.lifetime_jiffies else cfg.throttle_jiffies
  threshold ≤ diff

/-- The `xa_for_each` loop body of `ppt_evict_expired_entry`: remove the
first expired entry (in ascending index order) and stop; `none` when no
entry is expired. -/
def evict_scan (cfg : PptConfig) (current_jiffies : Nat) : PptArray → Option PptArray
  | [] => none
  | (k, v) :: rest =>
    if entry_expired cfg current_jiffies v then some rest
    else (evict_scan cfg current_jiffies rest).map (fun l => (k, v) :: l)

/-- `ppt_evict_expired_entry` (`mm/ppt.c:200-241`). -/
def ppt_evict_expired_entry (cfg : PptConfig) (mm : MMState) (jiffies : Nat) : MMState :=
  match mm.ppt_xarray with
  | none => mm
  | some xa =>
    match evict_scan cfg (jiffies &&& PPT_JIFFIES_MASK) xa with
    | some xa1 => ⟨some xa1, mm.ppt_entry_count - 1⟩
    | none => mm

/-- The erase-and-insert tail of `ppt_track_promotion`
(`mm/ppt.c:268-289`): under the store lock, remove any stale record at
`old_pfn` (without touching the entry count) and insert a fresh
`pg_pingpong = 0` record at `new_pfn`, incrementing the entry count on
success and the failed-stores counter on allocation failure. -/
def ppt_promotion_update (mm : MMState) (stats : PptStats)
    (old_pfn new_pfn jiffies : Nat) (store_ok : Bool) : MMState × PptStats :=
  match mm.ppt_xarray with
  | none => (mm, stats)
  | some xa =>
    let current_jiffies := jiffies &&& PPT_JIFFIES_MASK
    let value := PPT_MAKE_VALUE current_jiffies 0
    let xa1 := xa_erase xa old_pfn
    if store_ok then
      (⟨some (xa_store xa1 new_pfn value), mm.ppt_entry_count + 1⟩, stats)
    else
      (⟨some xa1, mm.ppt_entry_count⟩,
       { stats with xarray_stores_failed := stats.xarray_stores_failed + 1 })

/-- `ppt_track_promotion` (`mm/ppt.c:252-290`).  `store_ok` is the
success of the `GFP_ATOMIC` allocation inside `__xa_store`.  The
capacity comparison reads the counter before any eviction, exactly as
the `atomic_read` at `mm/ppt.c:264` does (the C `int` operand is
promoted to `unsigned long`; the two readings agree on the non-negative
counts that arise below). -/
def ppt_track_promotion (cfg : PptConfig) (mm : MMState) (stats : PptStats)
    (old_pfn new_pfn jiffies : Nat) (store_ok : Bool) : MMState × PptStats :=
  if cfg.ppt_enabled = false then (mm, stats)
  else
    let mm1 :=
      if (cfg.ppt_max_entries_per_mm : Int) ≤ mm.ppt_entry_count then
        ppt_evict_expired_entry cfg mm jiffies
      else mm
    ppt_promotion_update mm1 stats old_pfn new_pfn jiffies store_ok

/-- `ppt_track_demotion` (`mm/ppt.c:304-357`). -/
def ppt_track_demotion (cfg : PptConfig) (mm : MMState) (stats : PptStats)
    (old_pfn new_pfn jiffies : Nat) (store_ok : Bool) : MMState × PptStats :=
  if cfg.ppt_enabled = false then (mm, stats)
  else
    match mm.ppt_xarray with
    | none => (mm, stats)
    | some xa =>
      let current_jiffies := jiffies &&& PPT_JIFFIES_MASK
      match xa_load xa old_pfn with
      | none => (mm, stats)
      | some value =>
        let stored_jiffies := PPT_GET_JIFFIES value
        let diff := ppt_elapsed current_jiffies stored_jiffies
        if diff < cfg.lifetime_jiffies then
          let new_value := PPT_MAKE_VALUE current_jiffies 1
          let xa1 := xa_erase xa old_pfn
          if store_ok then
            (⟨some (xa_store xa1 new_pfn new_value), mm.ppt_entry_count⟩,
             { stats with demotions_short_lived := stats.demotions_short_lived + 1 })
          else
            (⟨some xa1, mm.ppt_entry_count - 1⟩,
             { stats with xarray_stores_failed := stats.xarray_stores_failed + 1 })
        else
          (⟨some (xa_erase xa old_pfn), mm.ppt_entry_count - 1⟩,
           { stats with demotions_long_lived := stats.demotions_long_lived + 1 })

/-- The `xa_for_each` loop of `ppt_shrink_mm_xarray` (`mm/ppt.c:387-411`),
with `budget = nr_to_scan - freed` remaining removals: returns the
remaining contents and the number of entries freed. -/
def shrink_scan (cfg : PptConfig) (current_jiffies : Nat) :
    Nat → PptArray → PptArray × Nat
  | _, [] => ([], 0)
  | budget, (k, v) :: rest =>
    if budget = 0 then ((k, v) :: rest, 0)
    else if entry_expired cfg current_jiffies v then
      let r := shrink_scan cfg current_jiffies (budget - 1) rest
      (r.1, r.2 + 1)
    else
      let r := shrink_scan cfg current_jiffies budget rest
      ((k, v) :: r.1, r.2)

/-- `ppt_shrink_mm_xarray` (`mm/ppt.c:368-416`): scan up to `nr_to_scan`
expired entries out of the store; returns the new state and the freed
count. -/
def ppt_shrink_mm_xarray (cfg : PptConfig) (mm : MMState)
    (nr_to_scan jiffies : Nat) : MMState × Nat :=
  match mm.ppt_xarray with
  | none => (mm, 0)
  | some xa =>
    let r := shrink_scan cfg (jiffies &&& PPT_JIFFIES_MASK) nr_to_scan xa
    (⟨some r.1, mm.ppt_entry_count - r.2⟩, r.2)

/-- One Decision Engine call, with its environment inputs (clock sample,
allocation outcome, caller flags). -/
inductive PptOp where
  | throttle (pfn jiffies out_flags : Nat)
  | promote (old_pfn new_pfn jiffies : Nat) (store_ok : Bool)
  | demote (old_pfn new_pfn jiffies : Nat) (store_ok : Bool)
  deriving Repr, DecidableEq

/-- Apply one Decision Engine call to an (mm state, statistics) pair. -/
def stepOp (cfg : PptConfig) (s : MMState × PptStats) : PptOp → MMState × PptStats
  | .throttle pfn jiffies out_flags =>
    let r := ppt_should_throttle_promotion cfg s.1 s.2 pfn jiffies out_flags
    (r.mm, r.stats)
  | .promote old_pfn new_pfn jiffies store_ok =>
    ppt_track_promotion cfg s.1 s.2 old_pfn new_pfn jiffies store_ok
  | .demote old_pfn new_pfn jiffies store_ok =>
    ppt_track_demotion cfg s.1 s.2 old_pfn new_pfn jiffies store_ok

/-- Run a sequence of Decision Engine calls. -/
def runOps (cfg : PptConfig) (ops : List PptOp) (s : MMState × PptStats) :
    MMState × PptStats :=
  ops.foldl (stepOp cfg) s

/-- The state `ppt_mm_init` leaves behind: an empty XArray and a zero
entry count (statistics start at zero at boot). -/
def ppt_init_state : MMState × PptStats := (⟨some [], 0⟩, ⟨0, 0, 0, 0, 0, 0⟩)

/-- The number of records currently present in an mm's store. -/
def records (mm : MMState) : Nat := (mm.ppt_xarray.getD []).length

/-! ## Arithmetic characterizations of the bit-level encoding -/

theorem PPT_JIFFIES_MASK_eq : PPT_JIFFIES_MASK = 2 ^ 22 - 1 := rfl

theorem land_mask (x : Nat) : x &&& PPT_JIFFIES_MASK = x % 2 ^ 22 := by
  rw [PPT_JIFFIES_MASK_eq]
  exact Nat.and_pow_two_sub_one_eq_mod x 22

theorem land_one (x : Nat) : x &&& 1 = x % 2 :=
  Nat.and_pow_two_sub_one_eq_mod x 1

theorem PPT_GET_JIFFIES_eq (v : Nat) : PPT_GET_JIFFIES v = v / 2 % 2 ^ 22 := by
  unfold PPT_GET_JIFFIES
  rw [land_mask, Nat.shiftRight_eq_div_pow, pow_one]

theorem PPT_GET_PINGPONG_eq (v : Nat) : PPT_GET_PINGPONG v = v / 2 ^ 23 % 2 := by
  unfold PPT_GET_PINGPONG PPT_PINGPONG_BIT
  rw [land_one, Nat.shiftRight_eq_div_pow]

theorem PPT_MAKE_VALUE_eq (j p : Nat) :
    PPT_MAKE_VALUE j p = j % 2 ^ 22 * 2 + p % 2 * 2 ^ 23 := by
  unfold PPT_MAKE_VALUE PPT_PINGPONG_BIT
  rw [land_mask, land_one, Nat.shiftLeft_eq, Nat.shiftLeft_eq]
  have hlt : j % 2 ^ 22 * 2 ^ 1 < 2 ^ 23 := by
    have := Nat.mod_lt j (show 0 < 2 ^ 22 by norm_num)
    omega
  rw [Nat.or_comm, show p % 2 * 2 ^ 23 = 2 ^ 23 * (p % 2) by ring,
    ← Nat.mul_add_lt_is_or hlt (p % 2)]
  omega

theorem ul_sub_eq (a b : Nat) (ha : a < 2 ^ 64) (hb : b < 2 ^ 64) :
    ul_sub a b = (a + 2 ^ 64 - b) % 2 ^ 64 := by
  unfold ul_sub
  rw [Nat.mod_eq_of_lt ha, Nat.mod_eq_of_lt hb]
  omega

theorem ppt_elapsed_sub (t0 t : Nat) (h : t0 ≤ t) :
    ppt_elapsed (t &&& PPT_JIFFIES_MASK) (t0 % 2 ^ 22) = (t - t0) % 2 ^ 22 := by
  unfold ppt_elapsed ul_sub
  rw [land_mask, land_mask]
  omega


theorem PPT_GET_JIFFIES_MAKE (j p : Nat) :
    PPT_GET_JIFFIES (PPT_MAKE_VALUE j p) = j % 2 ^ 22 := by
  rw [PPT_MAKE_VALUE_eq, PPT_GET_JIFFIES_eq]
  omega

theorem PPT_GET_PINGPONG_MAKE (j p : Nat) :
    PPT_GET_PINGPONG (PPT_MAKE_VALUE j p) = p % 2 := by
  rw [PPT_MAKE_VALUE_eq, PPT_GET_PINGPONG_eq]
  omega

/-! ## Branch behaviour of `ppt_should_throttle_promotion` -/

theorem should_throttle_of_pingpong_lt (cfg : PptConfig) (mm : MMState) (stats : PptStats)
    (pfn jiffies out_flags : Nat) (xa : PptArray) (value : Nat)
    (hen : cfg.ppt_enabled = true) (hxa : mm.ppt_xarray = some xa)
    (hload : xa_load xa pfn = some value) (hpp : PPT_GET_PINGPONG value = 1)
    (hlt : ppt_elapsed (jiffies &&& PPT_JIFFIES_MASK) (PPT_GET_JIFFIES value) <
      cfg.throttle_jiffies) :
    ppt_should_throttle_promotion cfg mm stats pfn jiffies out_flags =
      ⟨true, mm,
       { stats with promotions_throttled := stats.promotions_throttled + 1 },
       out_flags ||| TNF_THROTTLED⟩ := by
  simp [ppt_should_throttle_promotion, hen, hxa, hload, hpp, hlt]

theorem should_throttle_of_pingpong_ge (cfg : PptConfig) (mm : MMState) (stats : PptStats)
    (pfn jiffies out_flags : Nat) (xa : PptArray) (value : Nat)
    (hen : cfg.ppt_enabled = true) (hxa : mm.ppt_xarray = some xa)
    (hload : xa_load xa pfn = some value) (hpp : PPT_GET_PINGPONG value = 1)
    (hge : cfg.throttle_jiffies ≤
      ppt_elapsed (jiffies &&& PPT_JIFFIES_MASK) (PPT_GET_JIFFIES value)) :
    ppt_should_throttle_promotion cfg mm stats pfn jiffies out_flags =
      ⟨false, ⟨some (xa_erase xa pfn), mm.ppt_entry_count - 1⟩,
       { stats with promotions_allowed := stats.promotions_allowed + 1 },
       out_flags⟩ := by
  simp [ppt_should_throttle_promotion, hen, hxa, hload, hpp, Nat.not_lt.mpr hge]

/-- C2: for an enabled engine with a live store and a record for the
candidate pfn with `pg_pingpong = 1`: if the wrapped elapsed time since
the stored timestamp is strictly below the throttle threshold the call
returns true, sets `TNF_THROTTLED`, bumps "promotions throttled" and
leaves the store untouched; otherwise it returns false, erases the
record, decrements the entry count and bumps "promotions allowed".  In
particular a record stored at time `T` throttles at `T + (duration - 1)`
and stops throttling at `T + duration` (and later, within one wrap of
the 22-bit clock field). -/
theorem ppt_C2 (cfg : PptConfig) (mm : MMState) (stats : PptStats)
    (pfn jiffies out_flags : Nat) (xa : PptArray) (value : Nat)
    (hen : cfg.ppt_enabled = true) (hxa : mm.ppt_xarray = some xa)
    (hload : xa_load xa pfn = some value) (hpp : PPT_GET_PINGPONG value = 1) :
    (ppt_elapsed (jiffies &&& PPT_JIFFIES_MASK) (PPT_GET_JIFFIES value) <
        cfg.throttle_jiffies →
      ppt_should_throttle_promotion cfg mm stats pfn jiffies out_flags =
        ⟨true, mm,
         { stats with promotions_throttled := stats.promotions_throttled + 1 },
         out_flags ||| TNF_THROTTLED⟩) ∧
    (cfg.throttle_jiffies ≤
        ppt_elapsed (jiffies &&& PPT_JIFFIES_MASK) (PPT_GET_JIFFIES value) →
      ppt_should_throttle_promotion cfg mm stats pfn jiffies out_flags =
        ⟨false, ⟨some (xa_erase xa pfn), mm.ppt_entry_count - 1⟩,
         { stats with promotions_allowed := stats.promotions_allowed + 1 },
         out_flags⟩) ∧
    (∀ T, value = PPT_MAKE_VALUE T 1 → 0 < cfg.throttle_jiffies →
       cfg.throttle_jiffies ≤ 2 ^ 22 →
       (ppt_should_throttle_promotion cfg mm stats pfn
           (T + (cfg.throttle_jiffies - 1)) out_flags).ret = true ∧
       (∀ x, cfg.throttle_jiffies ≤ x → x < 2 ^ 22 →
         (ppt_should_throttle_promotion cfg mm stats pfn (T + x) out_flags).ret =
           false)) := by
  refine ⟨fun hlt => should_throttle_of_pingpong_lt cfg mm stats pfn jiffies
      out_flags xa value hen hxa hload hpp hlt,
    fun hge => should_throttle_of_pingpong_ge cfg mm stats pfn jiffies
      out_flags xa value hen hxa hload hpp hge, ?_⟩
  intro T hv hpos hle
  constructor
  · have hdiff : ppt_elapsed ((T + (cfg.throttle_jiffies - 1)) &&& PPT_JIFFIES_MASK)
        (PPT_GET_JIFFIES value) = cfg.throttle_jiffies - 1 := by
      rw [hv, PPT_GET_JIFFIES_MAKE,
        ppt_elapsed_sub T (T + (cfg.throttle_jiffies - 1)) (Nat.le_add_right T _)]
      omega
    rw [should_throttle_of_pingpong_lt cfg mm stats pfn
      (T + (cfg.throttle_jiffies - 1)) out_flags xa value hen hxa hload hpp
      (by rw [hdiff]; omega)]
  · intro x hx hxlt
    have hdiff : ppt_elapsed ((T + x) &&& PPT_JIFFIES_MASK)
        (PPT_GET_JIFFIES value) = x := by
      rw [hv, PPT_GET_JIFFIES_MAKE, ppt_elapsed_sub T (T + x) (Nat.le_add_right T x)]
      omega
    rw [should_throttle_of_pingpong_ge cfg mm stats pfn (T + x) out_flags xa value
      hen hxa hload hpp (by rw [hdiff]; omega)]

/-- Witness for `ppt_C2` at a concrete input: store `{(5, value stored
at T = 100 with pg_pingpong = 1)}`, throttle threshold 5000 ticks. -/
theorem ppt_C2_witness :
    (ppt_elapsed (103 &&& PPT_JIFFIES_MASK)
        (PPT_GET_JIFFIES (PPT_MAKE_VALUE 100 1)) < 5000 →
      ppt_should_throttle_promotion ⟨true, 5000, 5000, 1000000⟩
          ⟨some [(5, PPT_MAKE_VALUE 100 1)], 1⟩ ⟨0, 0, 0, 0, 0, 0⟩ 5 103 0 =
        ⟨true, ⟨some [(5, PPT_MAKE_VALUE 100 1)], 1⟩, ⟨0, 1, 0, 0, 0, 0⟩,
         0 ||| TNF_THROTTLED⟩) ∧
    (5000 ≤ ppt_elapsed (103 &&& PPT_JIFFIES_MASK)
        (PPT_GET_JIFFIES (PPT_MAKE_VALUE 100 1)) →
      ppt_should_throttle_promotion ⟨true, 5000, 5000, 1000000⟩
          ⟨some [(5, PPT_MAKE_VALUE 100 1)], 1⟩ ⟨0, 0, 0, 0, 0, 0⟩ 5 103 0 =
        ⟨false, ⟨some (xa_erase [(5, PPT_MAKE_VALUE 100 1)] 5), 0⟩,
         ⟨1, 0, 0, 0, 0, 0⟩, 0⟩) ∧
    (∀ T, PPT_MAKE_VALUE 100 1 = PPT_MAKE_VALUE T 1 → 0 < 5000 →
       5000 ≤ 2 ^ 22 →
       (ppt_should_throttle_promotion ⟨true, 5000, 5000, 1000000⟩
           ⟨some [(5, PPT_MAKE_VALUE 100 1)], 1⟩ ⟨0, 0, 0, 0, 0, 0⟩ 5
           (T + (5000 - 1)) 0).ret = true ∧
       (∀ x, 5000 ≤ x → x < 2 ^ 22 →
         (ppt_should_throttle_promotion ⟨true, 5000, 5000, 1000000⟩
             ⟨some [(5, PPT_MAKE_VALUE 100 1)], 1⟩ ⟨0, 0, 0, 0, 0, 0⟩ 5
             (T + x) 0).ret = false)) :=
  ppt_C2 ⟨true, 5000, 5000, 1000000⟩ ⟨some [(5, PPT_MAKE_VALUE 100 1)], 1⟩
    ⟨0, 0, 0, 0, 0, 0⟩ 5 103 0 [(5, PPT_MAKE_VALUE 100 1)] (PPT_MAKE_VALUE 100 1)
    rfl rfl (by decide) (by decide)

/-- C4: for an enabled engine with a live store and no record at the
candidate pfn, `ppt_should_throttle_promotion` returns false, bumps
"promotions allowed" exactly once, and leaves the store, the entry
count and the out-flags unchanged. -/
theorem ppt_C4 (cfg : PptConfig) (mm : MMState) (stats : PptStats)
    (pfn jiffies out_flags : Nat) (xa : PptArray)
    (hen : cfg.ppt_enabled = true) (hxa : mm.ppt_xarray = some xa)
    (hnone : xa_load xa pfn = none) :
    ppt_should_throttle_promotion cfg mm stats pfn jiffies out_flags =
      ⟨false, mm,
       { stats with promotions_allowed := stats.promotions_allowed + 1 },
       out_flags⟩ := by
  simp [ppt_should_throttle_promotion, hen, hxa, hnone]

/-- Witness for `ppt_C4` at a concrete input. -/
theorem ppt_C4_witness :
    ppt_should_throttle_promotion ⟨true, 5000, 5000, 1000000⟩
        ⟨some [(9, PPT_MAKE_VALUE 4 1)], 1⟩ ⟨0, 0, 0, 0, 0, 0⟩ 7 3 6 =
      ⟨false, ⟨some [(9, PPT_MAKE_VALUE 4 1)], 1⟩, ⟨1, 0, 0, 0, 0, 0⟩, 6⟩ :=
  ppt_C4 ⟨true, 5000, 5000, 1000000⟩ ⟨some [(9, PPT_MAKE_VALUE 4 1)], 1⟩
    ⟨0, 0, 0, 0, 0, 0⟩ 7 3 6 [(9, PPT_MAKE_VALUE 4 1)] rfl rfl (by decide)

/-- C5 counterexample: the claim says the inconsistency path (record
present with `tier_flag = false`) "increments the 'state inconsistency'
and entry-count counters".  At the concrete input below (enabled
engine, store `{(5, value with pg_pingpong = 0)}`, entry count 1) the
code erases the record and moves the entry count to `1 - 1 = 0`, not to
the incremented `1 + 1 = 2`: `atomic_dec` at `mm/ppt.c:163`. -/
theorem ppt_C5_cex :
    (ppt_should_throttle_promotion ⟨true, 5000, 5000, 1000000⟩
        ⟨some [(5, PPT_MAKE_VALUE 3 0)], 1⟩ ⟨0, 0, 0, 0, 0, 0⟩ 5 10 0).mm.ppt_entry_count
      = 1 - 1 ∧
    ¬ (ppt_should_throttle_promotion ⟨true, 5000, 5000, 1000000⟩
        ⟨some [(5, PPT_MAKE_VALUE 3 0)], 1⟩ ⟨0, 0, 0, 0, 0, 0⟩ 5 10 0).mm.ppt_entry_count
      = 1 + 1 := by
  decide

/-- C5 (amended): for an enabled engine with a live store, a record for
the candidate pfn with `pg_pingpong = 0` is a state inconsistency: the
record is erased, the "state inconsistency" counter is incremented, the
entry count is decremented (not incremented), no other statistics
counter changes, the out-flags are untouched and the call returns
false (fail open). -/
theorem ppt_C5 (cfg : PptConfig) (mm : MMState) (stats : PptStats)
    (pfn jiffies out_flags : Nat) (xa : PptArray) (value : Nat)
    (hen : cfg.ppt_enabled = true) (hxa : mm.ppt_xarray = some xa)
    (hload : xa_load xa pfn = some value) (hpp : PPT_GET_PINGPONG value = 0) :
    ppt_should_throttle_promotion cfg mm stats pfn jiffies out_flags =
      ⟨false, ⟨some (xa_erase xa pfn), mm.ppt_entry_count - 1⟩,
       { stats with state_exceptions := stats.state_exceptions + 1 },
       out_flags⟩ := by
  simp [ppt_should_throttle_promotion, hen, hxa, hload, hpp]

/-- Witness for `ppt_C5` at a concrete input. -/
theorem ppt_C5_witness :
    ppt_should_throttle_promotion ⟨true, 5000, 5000, 1000000⟩
        ⟨some [(5, PPT_MAKE_VALUE 3 0)], 1⟩ ⟨0, 0, 0, 0, 0, 0⟩ 5 10 0 =
      ⟨false, ⟨some (xa_erase [(5, PPT_MAKE_VALUE 3 0)] 5), 0⟩,
       ⟨0, 0, 0, 0, 0, 1⟩, 0⟩ :=
  ppt_C5 ⟨true, 5000, 5000, 1000000⟩ ⟨some [(5, PPT_MAKE_VALUE 3 0)], 1⟩
    ⟨0, 0, 0, 0, 0, 0⟩ 5 10 0 [(5, PPT_MAKE_VALUE 3 0)] (PPT_MAKE_VALUE 3 0)
    rfl rfl (by decide) (by decide)

/-- C7: with the engine globally disabled, `ppt_should_throttle_promotion`
returns false and all three Decision Engine operations leave the store,
the entry count, the out-flags and all six statistics counters
unchanged. -/
theorem ppt_C7 (cfg : PptConfig) (mm : MMState) (stats : PptStats)
    (pfn old_pfn new_pfn jiffies out_flags : Nat) (store_ok : Bool)
    (hdis : cfg.ppt_enabled = false) :
    ppt_should_throttle_promotion cfg mm stats pfn jiffies out_flags =
      ⟨false, mm, stats, out_flags⟩ ∧
    ppt_track_promotion cfg mm stats old_pfn new_pfn jiffies store_ok = (mm, stats) ∧
    ppt_track_demotion cfg mm stats old_pfn new_pfn jiffies store_ok = (mm, stats) := by
  refine ⟨?_, ?_, ?_⟩ <;>
    simp [ppt_should_throttle_promotion, ppt_track_promotion, ppt_track_demotion, hdis]

/-- Witness for `ppt_C7` at a concrete input (disabled engine over a
non-empty store). -/
theorem ppt_C7_witness :
    ppt_should_throttle_promotion ⟨false, 5000, 5000, 1000000⟩
        ⟨some [(5, PPT_MAKE_VALUE 3 1)], 1⟩ ⟨1, 2, 3, 4, 5, 6⟩ 5 10 0 =
      ⟨false, ⟨some [(5, PPT_MAKE_VALUE 3 1)], 1⟩, ⟨1, 2, 3, 4, 5, 6⟩, 0⟩ ∧
    ppt_track_promotion ⟨false, 5000, 5000, 1000000⟩
        ⟨some [(5, PPT_MAKE_VALUE 3 1)], 1⟩ ⟨1, 2, 3, 4, 5, 6⟩ 5 6 10 true =
      (⟨some [(5, PPT_MAKE_VALUE 3 1)], 1⟩, ⟨1, 2, 3, 4, 5, 6⟩) ∧
    ppt_track_demotion ⟨false, 5000, 5000, 1000000⟩
        ⟨some [(5, PPT_MAKE_VALUE 3 1)], 1⟩ ⟨1, 2, 3, 4, 5, 6⟩ 5 6 10 true =
      (⟨some [(5, PPT_MAKE_VALUE 3 1)], 1⟩, ⟨1, 2, 3, 4, 5, 6⟩) :=
  ppt_C7 ⟨false, 5000, 5000, 1000000⟩ ⟨some [(5, PPT_MAKE_VALUE 3 1)], 1⟩
    ⟨1, 2, 3, 4, 5, 6⟩ 5 5 6 10 0 true rfl

/-- C8: every elapsed-time computation in the engine — the shared
`ppt_elapsed`, i.e. `(current_masked - stored_jiffies) & PPT_JIFFIES_MASK`
with 64-bit wrapping subtraction, used by `ppt_should_throttle_promotion`,
`ppt_track_demotion` and both eviction scans — yields, for a record
stored at tick `t0` and a current clock of `t` ticks, a value below
`2 ^ 22` equal to the true tick distance `t - t0` modulo `2 ^ 22`, even
when the masked clock has wrapped past the stored timestamp. -/
theorem ppt_C8 (t0 t p : Nat) (h : t0 ≤ t) :
    ppt_elapsed (t &&& PPT_JIFFIES_MASK)
        (PPT_GET_JIFFIES (PPT_MAKE_VALUE t0 p)) = (t - t0) % 2 ^ 22 ∧
    ppt_elapsed (t &&& PPT_JIFFIES_MASK)
        (PPT_GET_JIFFIES (PPT_MAKE_VALUE t0 p)) < 2 ^ 22 := by
  rw [PPT_GET_JIFFIES_MAKE, ppt_elapsed_sub t0 t h]
  exact ⟨rfl, Nat.mod_lt _ (by norm_num)⟩

/-- Witness for `ppt_C8` at a concrete input where the masked clock has
wrapped: stored at `t0 = 2 ^ 22 - 2` (masked `4194302`), current
`t = 2 ^ 22 + 3` (masked `3`); the wrapped difference is `5`, not a
spurious huge value. -/
theorem ppt_C8_witness :
    4194302 ≤ 4194307 ∧
    (ppt_elapsed (4194307 &&& PPT_JIFFIES_MASK)
        (PPT_GET_JIFFIES (PPT_MAKE_VALUE 4194302 1)) = (4194307 - 4194302) % 2 ^ 22 ∧
     ppt_elapsed (4194307 &&& PPT_JIFFIES_MASK)
        (PPT_GET_JIFFIES (PPT_MAKE_VALUE 4194302 1)) < 2 ^ 22) :=
  ⟨by norm_num, ppt_C8 4194302 4194307 1 (by norm_num)⟩

/-- C10: the record-value encoding round-trips: decoding
`PPT_MAKE_VALUE(j, p)` gives back `j mod 2 ^ 22` and the flag `p`, for
both flag values; no bit leaks between the two fields. -/
theorem ppt_C10 (j p : Nat) (hp : p = 0 ∨ p = 1) :
    PPT_GET_JIFFIES (PPT_MAKE_VALUE j p) = j % 2 ^ 22 ∧
    PPT_GET_PINGPONG (PPT_MAKE_VALUE j p) = p := by
  rcases hp with h | h <;> subst h <;>
    simp [PPT_GET_JIFFIES_MAKE, PPT_GET_PINGPONG_MAKE]

/-- Witness for `ppt_C10` at a concrete input with a jiffies value above
the 22-bit field. -/
theorem ppt_C10_witness :
    PPT_GET_JIFFIES (PPT_MAKE_VALUE 4194309 1) = 4194309 % 2 ^ 22 ∧
    PPT_GET_PINGPONG (PPT_MAKE_VALUE 4194309 1) = 1 :=
  ppt_C10 4194309 1 (Or.inr rfl)

/-- C3: for an enabled engine with a live store,
`ppt_track_demotion(owner, old_pfn, new_pfn)`:
(1) with no record at `old_pfn`, changes nothing;
(2) with a record whose wrapped elapsed time is below the lifetime
threshold, erases the `old_pfn` record and inserts at `new_pfn` a
record with `pg_pingpong = 1` and the current (masked) timestamp,
bumping "short-lived demotions" on success, or on insert failure
bumping "failed record-store attempts" and decrementing the entry
count;
(3) with a record at or beyond the threshold, erases the record,
decrements the entry count, bumps "long-lived demotions" and inserts
nothing. -/
theorem ppt_C3 (cfg : PptConfig) (mm : MMState) (stats : PptStats)
    (old_pfn new_pfn jiffies : Nat) (xa : PptArray)
    (hen : cfg.ppt_enabled = true) (hxa : mm.ppt_xarray = some xa) :
    (xa_load xa old_pfn = none → ∀ store_ok,
      ppt_track_demotion cfg mm stats old_pfn new_pfn jiffies store_ok =
        (mm, stats)) ∧
    (∀ value, xa_load xa old_pfn = some value →
      (ppt_elapsed (jiffies &&& PPT_JIFFIES_MASK) (PPT_GET_JIFFIES value) <
          cfg.lifetime_jiffies →
        ppt_track_demotion cfg mm stats old_pfn new_pfn jiffies true =
          (⟨some (xa_store (xa_erase xa old_pfn) new_pfn
              (PPT_MAKE_VALUE (jiffies &&& PPT_JIFFIES_MASK) 1)),
            mm.ppt_entry_count⟩,
           { stats with demotions_short_lived := stats.demotions_short_lived + 1 }) ∧
        ppt_track_demotion cfg mm stats old_pfn new_pfn jiffies false =
          (⟨some (xa_erase xa old_pfn), mm.ppt_entry_count - 1⟩,
           { stats with xarray_stores_failed := stats.xarray_stores_failed + 1 })) ∧
      (cfg.lifetime_jiffies ≤
          ppt_elapsed (jiffies &&& PPT_JIFFIES_MASK) (PPT_GET_JIFFIES value) →
        ∀ store_ok,
          ppt_track_demotion cfg mm stats old_pfn new_pfn jiffies store_ok =
            (⟨some (xa_erase xa old_pfn), mm.ppt_entry_count - 1⟩,
             { stats with demotions_long_lived := stats.demotions_long_lived + 1 }))) := by
  refine ⟨fun hnone store_ok => ?_, fun value hload => ⟨fun hlt => ⟨?_, ?_⟩, fun hge store_ok => ?_⟩⟩
  · simp [ppt_track_demotion, hen, hxa, hnone]
  · simp [ppt_track_demotion, hen, hxa, hload, hlt]
  · simp [ppt_track_demotion, hen, hxa, hload, hlt]
  · simp [ppt_track_demotion, hen, hxa, hload, Nat.not_lt.mpr hge]

/-- Witness for `ppt_C3` at a concrete input: store
`{(5, value stored at tick 3 with pg_pingpong = 0)}`, current tick 10,
lifetime threshold 5000 (elapsed 7, short-lived), plus the no-record
case at key 6. -/
theorem ppt_C3_witness :
    (xa_load [(5, PPT_MAKE_VALUE 3 0)] 6 = none → ∀ store_ok,
      ppt_track_demotion ⟨true, 5000, 5000, 1000000⟩
          ⟨some [(5, PPT_MAKE_VALUE 3 0)], 1⟩ ⟨0, 0, 0, 0, 0, 0⟩ 6 9 10 store_ok =
        (⟨some [(5, PPT_MAKE_VALUE 3 0)], 1⟩, ⟨0, 0, 0, 0, 0, 0⟩)) ∧
    (∀ value, xa_load [(5, PPT_MAKE_VALUE 3 0)] 6 = some value →
      (ppt_elapsed (10 &&& PPT_JIFFIES_MASK) (PPT_GET_JIFFIES value) < 5000 →
        ppt_track_demotion ⟨true, 5000, 5000, 1000000⟩
            ⟨some [(5, PPT_MAKE_VALUE 3 0)], 1⟩ ⟨0, 0, 0, 0, 0, 0⟩ 6 9 10 true =
          (⟨some (xa_store (xa_erase [(5, PPT_MAKE_VALUE 3 0)] 6) 9
              (PPT_MAKE_VALUE (10 &&& PPT_JIFFIES_MASK) 1)), 1⟩,
           ⟨0, 0, 1, 0, 0, 0⟩) ∧
        ppt_track_demotion ⟨true, 5000, 5000, 1000000⟩
            ⟨some [(5, PPT_MAKE_VALUE 3 0)], 1⟩ ⟨0, 0, 0, 0, 0, 0⟩ 6 9 10 false =
          (⟨some (xa_erase [(5, PPT_MAKE_VALUE 3 0)] 6), 0⟩,
           ⟨0, 0, 0, 0, 1, 0⟩)) ∧
      (5000 ≤ ppt_elapsed (10 &&& PPT_JIFFIES_MASK) (PPT_GET_JIFFIES value) →
        ∀ store_ok,
          ppt_track_demotion ⟨true, 5000, 5000, 1000000⟩
              ⟨some [(5, PPT_MAKE_VALUE 3 0)], 1⟩ ⟨0, 0, 0, 0, 0, 0⟩ 6 9 10 store_ok =
            (⟨some (xa_erase [(5, PPT_MAKE_VALUE 3 0)] 6), 0⟩,
             ⟨0, 0, 0, 1, 0, 0⟩))) :=
  ppt_C3 ⟨true, 5000, 5000, 1000000⟩ ⟨some [(5, PPT_MAKE_VALUE 3 0)], 1⟩
    ⟨0, 0, 0, 0, 0, 0⟩ 6 9 10 [(5, PPT_MAKE_VALUE 3 0)] rfl rfl

/-! ## Store-size bookkeeping lemmas -/

theorem xa_erase_length_le (xa : PptArray) (pfn : Nat) :
    (xa_erase xa pfn).length ≤ xa.length := by
  induction xa with
  | nil => simp [xa_erase]
  | cons e rest ih =>
    obtain ⟨k, v⟩ := e
    by_cases h : k = pfn <;> simp [xa_erase, h] <;> omega

theorem xa_erase_length_lt (xa : PptArray) (pfn value : Nat)
    (h : xa_load xa pfn = some value) :
    (xa_erase xa pfn).length < xa.length := by
  induction xa with
  | nil => simp [xa_load] at h
  | cons e rest ih =>
    obtain ⟨k, v⟩ := e
    by_cases hk : k = pfn
    · have := xa_erase_length_le rest pfn
      simp [xa_erase, hk]
      omega
    · simp [xa_load, hk] at h
      have := ih h
      simp [xa_erase, hk]
      omega

theorem xa_store_length_le (xa : PptArray) (pfn value : Nat) :
    (xa_store xa pfn value).length ≤ xa.length + 1 := by
  induction xa with
  | nil => simp [xa_store]
  | cons e rest ih =>
    obtain ⟨k, v⟩ := e
    by_cases h1 : pfn < k
    · simp [xa_store, h1]
    · by_cases h2 : pfn = k <;> simp [xa_store, h1, h2]
      all_goals omega

theorem evict_scan_length (cfg : PptConfig) (current_jiffies : Nat)
    (xa xa1 : PptArray) (h : evict_scan cfg current_jiffies xa = some xa1) :
    xa1.length + 1 = xa.length := by
  induction xa generalizing xa1 with
  | nil => simp [evict_scan] at h
  | cons e rest ih =>
    obtain ⟨k, v⟩ := e
    by_cases he : entry_expired cfg current_jiffies v
    · simp [evict_scan, he] at h
      simp [← h]
    · simp [evict_scan, he] at h
      obtain ⟨l, hl, rfl⟩ := h
      have := ih l hl
      simp
      omega

/-! ## The entry counter never undercounts the store -/

theorem throttle_records_le (cfg : PptConfig) (mm : MMState) (stats : PptStats)
    (pfn jiffies out_flags : Nat)
    (h : (records mm : Int) ≤ mm.ppt_entry_count) :
    (records (ppt_should_throttle_promotion cfg mm stats pfn jiffies out_flags).mm : Int) ≤
      (ppt_should_throttle_promotion cfg mm stats pfn jiffies out_flags).mm.ppt_entry_count := by
  by_cases hen : cfg.ppt_enabled = false
  · simpa [ppt_should_throttle_promotion, hen] using h
  · rcases hxa : mm.ppt_xarray with _ | xa
    · simpa [ppt_should_throttle_promotion, hen, hxa] using h
    · have hrec : records mm = xa.length := by simp [records, hxa]
      rcases hload : xa_load xa pfn with _ | value
      · simpa [ppt_should_throttle_promotion, hen, hxa, hload] using h
      · have herase := xa_erase_length_lt xa pfn value hload
        by_cases hpp : PPT_GET_PINGPONG value = 0
        · simp [ppt_should_throttle_promotion, hen, hxa, hload, hpp, records]
          omega
        · by_cases hdiff : ppt_elapsed (jiffies &&& PPT_JIFFIES_MASK)
              (PPT_GET_JIFFIES value) < cfg.throttle_jiffies
          · simpa [ppt_should_throttle_promotion, hen, hxa, hload, hpp, hdiff] using h
          · simp [ppt_should_throttle_promotion, hen, hxa, hload, hpp, hdiff, records]
            omega

theorem evict_records_le (cfg : PptConfig) (mm : MMState) (jiffies : Nat)
    (h : (records mm : Int) ≤ mm.ppt_entry_count) :
    (records (ppt_evict_expired_entry cfg mm jiffies) : Int) ≤
      (ppt_evict_expired_entry cfg mm jiffies).ppt_entry_count := by
  rcases hxa : mm.ppt_xarray with _ | xa
  · simpa [ppt_evict_expired_entry, hxa] using h
  · have hrec : records mm = xa.length := by simp [records, hxa]
    rcases hscan : evict_scan cfg (jiffies &&& PPT_JIFFIES_MASK) xa with _ | xa1
    · simpa [ppt_evict_expired_entry, hxa, hscan] using h
    · have := evict_scan_length cfg (jiffies &&& PPT_JIFFIES_MASK) xa xa1 hscan
      simp [ppt_evict_expired_entry, hxa, hscan, records]
      omega

theorem promotion_update_records_le (mm : MMState) (stats : PptStats)
    (old_pfn new_pfn jiffies : Nat) (store_ok : Bool)
    (h : (records mm : Int) ≤ mm.ppt_entry_count) :
    (records (ppt_promotion_update mm stats old_pfn new_pfn jiffies store_ok).1 : Int) ≤
      (ppt_promotion_update mm stats old_pfn new_pfn jiffies store_ok).1.ppt_entry_count := by
  rcases hxa : mm.ppt_xarray with _ | xa
  · simpa [ppt_promotion_update, hxa] using h
  · have hrec : records mm = xa.length := by simp [records, hxa]
    have herase := xa_erase_length_le xa old_pfn
    have hstore := xa_store_length_le (xa_erase xa old_pfn) new_pfn
      (PPT_MAKE_VALUE (jiffies &&& PPT_JIFFIES_MASK) 0)
    cases store_ok <;> simp [ppt_promotion_update, hxa, records] <;> omega

theorem promote_records_le (cfg : PptConfig) (mm : MMState) (stats : PptStats)
    (old_pfn new_pfn jiffies : Nat) (store_ok : Bool)
    (h : (records mm : Int) ≤ mm.ppt_entry_count) :
    (records (ppt_track_promotion cfg mm stats old_pfn new_pfn jiffies store_ok).1 : Int) ≤
      (ppt_track_promotion cfg mm stats old_pfn new_pfn jiffies store_ok).1.ppt_entry_count := by
  by_cases hen : cfg.ppt_enabled = false
  · simpa [ppt_track_promotion, hen] using h
  · by_cases hcap : (cfg.ppt_max_entries_per_mm : Int) ≤ mm.ppt_entry_count
    · simpa [ppt_track_promotion, hen, hcap] using
        promotion_update_records_le _ stats old_pfn new_pfn jiffies store_ok
          (evict_records_le cfg mm jiffies h)
    · simpa [ppt_track_promotion, hen, hcap] using
        promotion_update_records_le mm stats old_pfn new_pfn jiffies store_ok h

theorem demote_records_le (cfg : PptConfig) (mm : MMState) (stats : PptStats)
    (old_pfn new_pfn jiffies : Nat) (store_ok : Bool)
    (h : (records mm : Int) ≤ mm.ppt_entry_count) :
    (records (ppt_track_demotion cfg mm stats old_pfn new_pfn jiffies store_ok).1 : Int) ≤
      (ppt_track_demotion cfg mm stats old_pfn new_pfn jiffies store_ok).1.ppt_entry_count := by
  by_cases hen : cfg.ppt_enabled = false
  · simpa [ppt_track_demotion, hen] using h
  · rcases hxa : mm.ppt_xarray with _ | xa
    · simpa [ppt_track_demotion, hen, hxa] using h
    · have hrec : records mm = xa.length := by simp [records, hxa]
      rcases hload : xa_load xa old_pfn with _ | value
      · simpa [ppt_track_demotion, hen, hxa, hload] using h
      · have herase := xa_erase_length_lt xa old_pfn value hload
        have hstore := xa_store_length_le (xa_erase xa old_pfn) new_pfn
          (PPT_MAKE_VALUE (jiffies &&& PPT_JIFFIES_MASK) 1)
        by_cases hdiff : ppt_elapsed (jiffies &&& PPT_JIFFIES_MASK)
            (PPT_GET_JIFFIES value) < cfg.lifetime_jiffies
        · cases store_ok <;>
            (simp [ppt_track_demotion, hen, hxa, hload, hdiff, records]; omega)
        · simp [ppt_track_demotion, hen, hxa, hload, hdiff, records]
          omega

theorem stepOp_records_le (cfg : PptConfig) (s : MMState × PptStats) (op : PptOp)
    (h : (records s.1 : Int) ≤ s.1.ppt_entry_count) :
    (records (stepOp cfg s op).1 : Int) ≤ (stepOp cfg s op).1.ppt_entry_count := by
  cases op with
  | throttle pfn jiffies out_flags =>
    exact throttle_records_le cfg s.1 s.2 pfn jiffies out_flags h
  | promote old_pfn new_pfn jiffies store_ok =>
    exact promote_records_le cfg s.1 s.2 old_pfn new_pfn jiffies store_ok h
  | demote old_pfn new_pfn jiffies store_ok =>
    exact demote_records_le cfg s.1 s.2 old_pfn new_pfn jiffies store_ok h

theorem runOps_records_le (cfg : PptConfig) (ops : List PptOp)
    (s : MMState × PptStats) (h : (records s.1 : Int) ≤ s.1.ppt_entry_count) :
    (records (runOps cfg ops s).1 : Int) ≤ (runOps cfg ops s).1.ppt_entry_count := by
  induction ops generalizing s with
  | nil => exact h
  | cons op ops ih => exact ih (stepOp cfg s op) (stepOp_records_le cfg s op h)

/-- C1 counterexample: the claim says the live-entry counter equals the
number of records after every operation, with the defensive erase in
`ppt_track_promotion` decrementing it.  Starting from an empty store
with the engine enabled, `ppt_track_promotion(0 -> 1)` followed by
`ppt_track_promotion(1 -> 2)` leaves one record but a counter of 2: the
defensive `__xa_erase(xa, old_pfn)` at `mm/ppt.c:279` removes the
record at pfn 1 without any `atomic_dec`. -/
theorem ppt_C1_cex :
    (runOps ⟨true, 5000, 5000, 1000000⟩
        [.promote 0 1 0 true, .promote 1 2 0 true] ppt_init_state).1.ppt_entry_count = 2 ∧
    records (runOps ⟨true, 5000, 5000, 1000000⟩
        [.promote 0 1 0 true, .promote 1 2 0 true] ppt_init_state).1 = 1 ∧
    (2 : Int) ≠ (1 : Int) := by
  decide

/-- C1 (amended): the live-entry counter never undercounts the store:
after any sequence of Decision Engine operations starting from a fresh
store, the counter is at least the number of records present.  It is
not always equal: the defensive erase of the `old_pfn` record inside
`ppt_track_promotion` does not decrement the counter, and an insert
that overwrites an existing record still increments it. -/
theorem ppt_C1 (cfg : PptConfig) (ops : List PptOp) :
    (records (runOps cfg ops ppt_init_state).1 : Int) ≤
      (runOps cfg ops ppt_init_state).1.ppt_entry_count :=
  runOps_records_le cfg ops ppt_init_state (by simp [ppt_init_state, records])

/-! ## Capacity behaviour of `ppt_track_promotion` -/

/-- The capacity-repair condition at one `ppt_track_promotion` call:
whenever the call starts at or above the configured maximum, the
eviction scan actually finds an expired entry to remove. -/
def promo_guard (cfg : PptConfig) (mm : MMState) (jiffies : Nat) : Bool :=
  if (cfg.ppt_max_entries_per_mm : Int) ≤ mm.ppt_entry_count then
    match mm.ppt_xarray with
    | some xa => (evict_scan cfg (jiffies &&& PPT_JIFFIES_MASK) xa).isSome
    | none => false
  else true

/-- The capacity-repair condition for an arbitrary operation (only
`promote` inserts, so only `promote` is constrained). -/
def op_guard (cfg : PptConfig) (mm : MMState) : PptOp → Bool
  | .promote _ _ jiffies _ => promo_guard cfg mm jiffies
  | _ => true

/-- Run a sequence of operations and report whether the capacity-repair
condition held at every step. -/
def runGuarded (cfg : PptConfig) : List PptOp → (MMState × PptStats) →
    (MMState × PptStats) × Bool
  | [], s => (s, true)
  | op :: ops, s =>
    let r := runGuarded cfg ops (stepOp cfg s op)
    (r.1, op_guard cfg s.1 op && r.2)

theorem runGuarded_fst (cfg : PptConfig) (ops : List PptOp) (s : MMState × PptStats) :
    (runGuarded cfg ops s).1 = runOps cfg ops s := by
  induction ops generalizing s with
  | nil => rfl
  | cons op ops ih => simpa [runGuarded, runOps, List.foldl_cons] using ih (stepOp cfg s op)

theorem throttle_count_le (cfg : PptConfig) (mm : MMState) (stats : PptStats)
    (pfn jiffies out_flags : Nat) :
    (ppt_should_throttle_promotion cfg mm stats pfn jiffies out_flags).mm.ppt_entry_count ≤
      mm.ppt_entry_count := by
  by_cases hen : cfg.ppt_enabled = false
  · simp [ppt_should_throttle_promotion, hen]
  · rcases hxa : mm.ppt_xarray with _ | xa
    · simp [ppt_should_throttle_promotion, hen, hxa]
    · rcases hload : xa_load xa pfn with _ | value
      · simp [ppt_should_throttle_promotion, hen, hxa, hload]
      · by_cases hpp : PPT_GET_PINGPONG value = 0
        · simp [ppt_should_throttle_promotion, hen, hxa, hload, hpp]
        · by_cases hdiff : ppt_elapsed (jiffies &&& PPT_JIFFIES_MASK)
              (PPT_GET_JIFFIES value) < cfg.throttle_jiffies
          · simp [ppt_should_throttle_promotion, hen, hxa, hload, hpp, hdiff]
          · simp [ppt_should_throttle_promotion, hen, hxa, hload, hpp, hdiff]

theorem demote_count_le (cfg : PptConfig) (mm : MMState) (stats : PptStats)
    (old_pfn new_pfn jiffies : Nat) (store_ok : Bool) :
    (ppt_track_demotion cfg mm stats old_pfn new_pfn jiffies store_ok).1.ppt_entry_count ≤
      mm.ppt_entry_count := by
  by_cases hen : cfg.ppt_enabled = false
  · simp [ppt_track_demotion, hen]
  · rcases hxa : mm.ppt_xarray with _ | xa
    · simp [ppt_track_demotion, hen, hxa]
    · rcases hload : xa_load xa old_pfn with _ | value
      · simp [ppt_track_demotion, hen, hxa, hload]
      · by_cases hdiff : ppt_elapsed (jiffies &&& PPT_JIFFIES_MASK)
            (PPT_GET_JIFFIES value) < cfg.lifetime_jiffies
        · cases store_ok <;> simp [ppt_track_demotion, hen, hxa, hload, hdiff]
        · simp [ppt_track_demotion, hen, hxa, hload, hdiff]

theorem promotion_update_count_le (mm : MMState) (stats : PptStats)
    (old_pfn new_pfn jiffies : Nat) (store_ok : Bool) :
    (ppt_promotion_update mm stats old_pfn new_pfn jiffies store_ok).1.ppt_entry_count ≤
      mm.ppt_entry_count + 1 := by
  rcases hxa : mm.ppt_xarray with _ | xa
  · simp [ppt_promotion_update, hxa]
  · cases store_ok <;> simp [ppt_promotion_update, hxa]

theorem evict_count_eq_of_scan_some (cfg : PptConfig) (mm : MMState) (jiffies : Nat)
    (xa : PptArray) (hxa : mm.ppt_xarray = some xa)
    (hs : (evict_scan cfg (jiffies &&& PPT_JIFFIES_MASK) xa).isSome = true) :
    (ppt_evict_expired_entry cfg mm jiffies).ppt_entry_count = mm.ppt_entry_count - 1 := by
  rcases hscan : evict_scan cfg (jiffies &&& PPT_JIFFIES_MASK) xa with _ | xa1
  · rw [hscan] at hs
    simp at hs
  · simp [ppt_evict_expired_entry, hxa, hscan]

theorem promote_count_bound (cfg : PptConfig) (mm : MMState) (stats : PptStats)
    (old_pfn new_pfn jiffies : Nat) (store_ok : Bool)
    (hg : promo_guard cfg mm jiffies = true)
    (h : mm.ppt_entry_count ≤ (cfg.ppt_max_entries_per_mm : Int) + 1) :
    (ppt_track_promotion cfg mm stats old_pfn new_pfn jiffies store_ok).1.ppt_entry_count ≤
      (cfg.ppt_max_entries_per_mm : Int) + 1 := by
  by_cases hen : cfg.ppt_enabled = false
  · simpa [ppt_track_promotion, hen] using h
  · by_cases hcap : (cfg.ppt_max_entries_per_mm : Int) ≤ mm.ppt_entry_count
    · rcases hxa : mm.ppt_xarray with _ | xa
      · rw [promo_guard, if_pos hcap, hxa] at hg
        simp at hg
      · rw [promo_guard, if_pos hcap, hxa] at hg
        have hev := evict_count_eq_of_scan_some cfg mm jiffies xa hxa hg
        have hupd := promotion_update_count_le (ppt_evict_expired_entry cfg mm jiffies)
          stats old_pfn new_pfn jiffies store_ok
        simp [ppt_track_promotion, hen, hcap]
        omega
    · have hupd := promotion_update_count_le mm stats old_pfn new_pfn jiffies store_ok
      simp [ppt_track_promotion, hen, hcap]
      omega

theorem stepOp_count_bound (cfg : PptConfig) (s : MMState × PptStats) (op : PptOp)
    (hg : op_guard cfg s.1 op = true)
    (h : s.1.ppt_entry_count ≤ (cfg.ppt_max_entries_per_mm : Int) + 1) :
    (stepOp cfg s op).1.ppt_entry_count ≤ (cfg.ppt_max_entries_per_mm : Int) + 1 := by
  cases op with
  | throttle pfn jiffies out_flags =>
    have := throttle_count_le cfg s.1 s.2 pfn jiffies out_flags
    simp only [stepOp]
    omega
  | promote old_pfn new_pfn jiffies store_ok =>
    exact promote_count_bound cfg s.1 s.2 old_pfn new_pfn jiffies store_ok hg h
  | demote old_pfn new_pfn jiffies store_ok =>
    have := demote_count_le cfg s.1 s.2 old_pfn new_pfn jiffies store_ok
    simp only [stepOp]
    omega

theorem runGuarded_count_bound (cfg : PptConfig) (ops : List PptOp)
    (s : MMState × PptStats)
    (hguard : (runGuarded cfg ops s).2 = true)
    (h : s.1.ppt_entry_count ≤ (cfg.ppt_max_entries_per_mm : Int) + 1) :
    (runGuarded cfg ops s).1.1.ppt_entry_count ≤
      (cfg.ppt_max_entries_per_mm : Int) + 1 := by
  induction ops generalizing s with
  | nil => exact h
  | cons op ops ih =>
    rw [runGuarded] at hguard
    rw [Bool.and_eq_true] at hguard
    exact ih (stepOp cfg s op) hguard.2 (stepOp_count_bound cfg s op hguard.1 h)

theorem xa_erase_absent (xa : PptArray) (pfn : Nat) (h : ∀ e ∈ xa, e.1 ≠ pfn) :
    xa_erase xa pfn = xa := by
  induction xa with
  | nil => rfl
  | cons e rest ih =>
    obtain ⟨k, v⟩ := e
    have hk : k ≠ pfn := h (k, v) (List.mem_cons_self _ _)
    simp only [xa_erase, if_neg hk]
    rw [ih fun e he => h e (List.mem_cons_of_mem _ he)]

theorem xa_store_append (xa : PptArray) (pfn value : Nat)
    (h : ∀ e ∈ xa, e.1 < pfn) :
    xa_store xa pfn value = xa ++ [(pfn, value)] := by
  induction xa with
  | nil => rfl
  | cons e rest ih =>
    obtain ⟨k, v⟩ := e
    have hk : k < pfn := h (k, v) (List.mem_cons_self _ _)
    simp only [xa_store, if_neg (by omega : ¬ pfn < k), if_neg (by omega : ¬ pfn = k)]
    rw [ih fun e he => h e (List.mem_cons_of_mem _ he)]
    simp

theorem evict_scan_none_of (cfg : PptConfig) (current_jiffies : Nat) (xa : PptArray)
    (h : ∀ e ∈ xa, entry_expired cfg current_jiffies e.2 = false) :
    evict_scan cfg current_jiffies xa = none := by
  induction xa with
  | nil => rfl
  | cons e rest ih =>
    obtain ⟨k, v⟩ := e
    have hk : entry_expired cfg current_jiffies v = false :=
      h (k, v) (List.mem_cons_self _ _)
    simp only [evict_scan, hk, Bool.false_eq_true, if_false]
    rw [ih fun e he => h e (List.mem_cons_of_mem _ he)]
    rfl

/-- `N` promotion calls with pairwise distinct target pfns `0, …, N-1`,
all issued at clock 0 and with every allocation succeeding. -/
def distinct_promos (n : Nat) : List PptOp :=
  (List.range n).map fun i => .promote i i 0 true

/-- The store contents after `distinct_promos n`: one fresh
`pg_pingpong = 0` record per pfn, all stamped at tick 0. -/
def fresh_list (n : Nat) : PptArray :=
  (List.range n).map fun i => (i, PPT_MAKE_VALUE 0 0)

theorem runOps_append (cfg : PptConfig) (l1 l2 : List PptOp) (s : MMState × PptStats) :
    runOps cfg (l1 ++ l2) s = runOps cfg l2 (runOps cfg l1 s) :=
  List.foldl_append _ _ l1 l2


theorem promo_step_fresh (n : Nat) :
    ppt_track_promotion ⟨true, 5000, 5000, 1000⟩ ⟨some (fresh_list n), (n : Int)⟩
        ⟨0, 0, 0, 0, 0, 0⟩ n n 0 true =
      (⟨some (fresh_list n ++ [(n, PPT_MAKE_VALUE 0 0)]), (n : Int) + 1⟩,
       ⟨0, 0, 0, 0, 0, 0⟩) := by
  have hkeys : ∀ e ∈ fresh_list n, e.1 < n := by
    intro e he
    simp only [fresh_list, List.mem_map, List.mem_range] at he
    obtain ⟨i, hi, rfl⟩ := he
    exact hi
  have hfresh : ∀ e ∈ fresh_list n,
      entry_expired ⟨true, 5000, 5000, 1000⟩ 0 e.2 = false := by
    intro e he
    simp only [fresh_list, List.mem_map, List.mem_range] at he
    obtain ⟨i, hi, rfl⟩ := he
    exact (by decide :
      entry_expired ⟨true, 5000, 5000, 1000⟩ 0 (PPT_MAKE_VALUE 0 0) = false)
  have hscan := evict_scan_none_of ⟨true, 5000, 5000, 1000⟩ 0 (fresh_list n) hfresh
  have herase := xa_erase_absent (fresh_list n) n fun e he => Nat.ne_of_lt (hkeys e he)
  have hstoreq := xa_store_append (fresh_list n) n (PPT_MAKE_VALUE 0 0) hkeys
  have hevict : ppt_evict_expired_entry ⟨true, 5000, 5000, 1000⟩
      ⟨some (fresh_list n), (n : Int)⟩ 0 = ⟨some (fresh_list n), (n : Int)⟩ := by
    simp [ppt_evict_expired_entry, hscan]
  simp only [ppt_track_promotion]
  rw [if_neg (by decide : ¬ ((⟨true, 5000, 5000, 1000⟩ : PptConfig).ppt_enabled = false))]
  split
  · rw [hevict]
    simp [ppt_promotion_update, herase, hstoreq]
  · simp [ppt_promotion_update, herase, hstoreq]

theorem distinct_promos_state (n : Nat) :
    runOps ⟨true, 5000, 5000, 1000⟩ (distinct_promos n) ppt_init_state =
      (⟨some (fresh_list n), (n : Int)⟩, ⟨0, 0, 0, 0, 0, 0⟩) := by
  induction n with
  | zero => simp [distinct_promos, fresh_list, runOps, ppt_init_state]
  | succ n ih =>
    have hsplit : distinct_promos (n + 1) =
        distinct_promos n ++ [.promote n n 0 true] := by
      simp [distinct_promos, List.range_succ]
    have hfla : fresh_list (n + 1) = fresh_list n ++ [(n, PPT_MAKE_VALUE 0 0)] := by
      simp [fresh_list, List.range_succ]
    rw [hsplit, runOps_append, ih]
    show stepOp ⟨true, 5000, 5000, 1000⟩ (⟨some (fresh_list n), (n : Int)⟩,
      ⟨0, 0, 0, 0, 0, 0⟩) (.promote n n 0 true) = _
    rw [stepOp, promo_step_fresh n, hfla]
    constructor

/-- C6 counterexample: with max-entries configured to 1000 (the lowest
sysfs-accepted value) and nothing expired, 1002 promotions of distinct
pfns at clock 0 drive the live-entry count (and the actual record
count) to 1002 > 1000 + 1: the at-capacity eviction scan finds no
expired entry, frees nothing, and the insert proceeds anyway, so the
overshoot is not bounded by one entry. -/
theorem ppt_C6_cex :
    (runOps ⟨true, 5000, 5000, 1000⟩ (distinct_promos 1002)
        ppt_init_state).1.ppt_entry_count = 1002 ∧
    records (runOps ⟨true, 5000, 5000, 1000⟩ (distinct_promos 1002)
        ppt_init_state).1 = 1002 ∧
    ¬ ((1002 : Int) ≤ (1000 : Int) + 1) := by
  have h := distinct_promos_state 1002
  refine ⟨?_, ?_, by decide⟩
  · rw [h]
    norm_num
  · rw [h]
    simp [records, fresh_list]

/-- C6 (amended): the transient overshoot is bounded by one entry
provided every `ppt_track_promotion` call issued at or above capacity
finds an expired entry to evict: under that capacity-repair condition,
after any operation sequence from a fresh store the live-entry count
never exceeds max-entries + 1.  (Without it, each at-capacity insert
whose eviction scan finds nothing pushes the count one higher, without
bound, as the counterexample shows.) -/
theorem ppt_C6 (cfg : PptConfig) (ops : List PptOp)
    (hguard : (runGuarded cfg ops ppt_init_state).2 = true) :
    (runOps cfg ops ppt_init_state).1.ppt_entry_count ≤
      (cfg.ppt_max_entries_per_mm : Int) + 1 := by
  have h0 : (ppt_init_state.1.ppt_entry_count : Int) ≤
      (cfg.ppt_max_entries_per_mm : Int) + 1 := by
    simp only [ppt_init_state]
    omega
  have h := runGuarded_count_bound cfg ops ppt_init_state hguard h0
  rwa [runGuarded_fst] at h

/-- Witness for `ppt_C6` at a concrete input: three below-capacity
operations with the capacity-repair condition holding trivially. -/
theorem ppt_C6_witness :
    (runGuarded ⟨true, 5000, 5000, 1000⟩
        [.promote 1 2 0 true, .demote 2 3 0 true, .throttle 3 7 0]
        ppt_init_state).2 = true ∧
    (runOps ⟨true, 5000, 5000, 1000⟩
        [.promote 1 2 0 true, .demote 2 3 0 true, .throttle 3 7 0]
        ppt_init_state).1.ppt_entry_count ≤
      ((PptConfig.mk true 5000 5000 1000).ppt_max_entries_per_mm : Int) + 1 :=
  ⟨by decide, ppt_C6 ⟨true, 5000, 5000, 1000⟩
    [.promote 1 2 0 true, .demote 2 3 0 true, .throttle 3 7 0] (by decide)⟩
